import Mathlib

/-!
Verification development for the answer-processing pipeline of the
AI-Interview-Coach repository (backend route `/transcribe`,
file `backend/routes/transcribe.js`).

The JavaScript source is shallowly embedded: the pure text-processing
steps become Lean functions on `List Char`, the per-request route
handler becomes a function from an environment of external-effect
outcomes (upload present, subprocess results, classifier answers,
generative-model answers) to a response value plus an execution trace.
Floating-point numbers are modelled as rationals.
-/

namespace Transcribe

/-- A sentence-terminal punctuation character, as in the source regex
character class `[.!?]`. -/
def isTerm (c : Char) : Bool := c = '.' || c = '!' || c = '?'

/-- One pass of the global regex match `text.match(/[^.!?]+[.!?]?/g)`.
The accumulator holds the reversed characters of the sentence body
matched so far by `[^.!?]+`. A terminator closes the current body (the
optional `[.!?]?`); a terminator met with an empty body cannot start a
match and is skipped by the regex engine. -/
def splitAux : List Char → List Char → List (List Char)
  | acc, [] => if acc = [] then [] else [acc.reverse]
  | acc, c :: cs =>
    if isTerm c then
      if acc = [] then splitAux [] cs
      else (acc.reverse ++ [c]) :: splitAux [] cs
    else splitAux (c :: acc) cs

/-- All matches of `/[^.!?]+[.!?]?/g` against the text. -/
def matchSentences (l : List Char) : List (List Char) := splitAux [] l

/-- The sentence list used by `classifyParagraph`:
`text.match(/[^.!?]+[.!?]?/g) || [text]` — when there is no match the
whole text is the single sentence. -/
def sentencesOf (l : List Char) : List (List Char) :=
  match matchSentences l with
  | [] => [l]
  | r => r

/-- Concatenation of a list of character lists. -/
def joinL : List (List Char) → List Char
  | [] => []
  | x :: xs => x ++ joinL xs

/-- No two adjacent characters are both sentence terminators. -/
def noDT : List Char → Bool
  | c :: d :: rest => (!(isTerm c && isTerm d)) && noDT (d :: rest)
  | _ => true

/-- The first character, if any, is not a sentence terminator. -/
def headOk : List Char → Bool
  | [] => true
  | c :: _ => !isTerm c

/-- Every terminator in the text is immediately preceded by a
non-terminator character. -/
def goodT (l : List Char) : Bool := headOk l && noDT l

/-- Characters that are not whitespace, used to compare texts modulo
whitespace normalization. -/
def stripWs (l : List Char) : List Char := l.filter (fun c => !c.isWhitespace)

lemma noDT_tail {c : Char} {cs : List Char} (h : noDT (c :: cs) = true) :
    noDT cs = true := by
  cases cs with
  | nil => rfl
  | cons d rest =>
    simp only [noDT, Bool.and_eq_true] at h
    exact h.2

lemma noDT_pair {c d : Char} {rest : List Char}
    (h : noDT (c :: d :: rest) = true) (hc : isTerm c = true) :
    isTerm d = false := by
  simp only [noDT, Bool.and_eq_true, Bool.not_eq_true', Bool.and_eq_false_iff] at h
  rcases h.1 with h1 | h1
  · rw [hc] at h1; cases h1
  · exact h1

lemma joinL_splitAux :
    ∀ (l acc : List Char), noDT l = true →
      (acc = [] → headOk l = true) →
      joinL (splitAux acc l) = acc.reverse ++ l := by
  intro l
  induction l with
  | nil =>
    intro acc _ _
    by_cases hacc : acc = []
    · subst hacc; simp [splitAux, joinL]
    · simp [splitAux, hacc, joinL]
  | cons c cs ih =>
    intro acc hn hh
    by_cases hc : isTerm c = true
    · by_cases hacc : acc = []
      · exfalso
        have := hh hacc
        simp [headOk, hc] at this
      · have hcs : noDT cs = true := noDT_tail hn
        have hhead : headOk cs = true := by
          cases cs with
          | nil => rfl
          | cons d rest =>
            simp [headOk, noDT_pair hn hc]
        have := ih [] hcs (fun _ => hhead)
        simp [splitAux, hc, hacc, joinL, this]
    · have hcs : noDT cs = true := noDT_tail hn
      have hb : isTerm c = false := by simpa using hc
      have := ih (c :: acc) hcs (by intro h; cases h)
      simp [splitAux, hb, this]

lemma joinL_matchSentences (l : List Char) (h : goodT l = true) :
    joinL (matchSentences l) = l := by
  have hh : headOk l = true := by
    simp only [goodT, Bool.and_eq_true] at h; exact h.1
  have hn : noDT l = true := by
    simp only [goodT, Bool.and_eq_true] at h; exact h.2
  simpa using joinL_splitAux l [] hn (fun _ => hh)

/-! ## Scores, normalization, dominant emotion -/

/-- A classifier answer: a list of label-score pairs, as returned by
`hf.textClassification`. -/
abbrev RList := List (String × ℚ)

/-- The accumulated score map. The JavaScript object `scoreMap` is
modelled as an association list in key insertion order. -/
abbrev ScoreMap := List (String × ℚ)

/-- One accumulation step:
`if (!scoreMap[r.label]) scoreMap[r.label] = 0; scoreMap[r.label] += r.score;`.
A present key has its value increased in place, an absent key is
appended with its score. -/
def addScore (m : ScoreMap) (lbl : String) (sc : ℚ) : ScoreMap :=
  if m.any (fun p => p.1 = lbl) then
    m.map (fun p => if p.1 = lbl then (p.1, p.2 + sc) else p)
  else m ++ [(lbl, sc)]

/-- Accumulate a whole classifier answer into the map, in answer order
(`res.forEach`). -/
def applyResult (m : ScoreMap) (r : RList) : ScoreMap :=
  r.foldl (fun mm p => addScore mm p.1 p.2) m

/-- The total `Object.values(scoreMap).reduce((sum, score) => sum + score, 0)`. -/
def totalScore (m : ScoreMap) : ℚ := (m.map Prod.snd).sum

/-- The rounding `parseFloat(x.toFixed(4))`: round to the nearest multiple of
`1/10000` (idealized in exact arithmetic, halves rounding up). -/
def round4 (q : ℚ) : ℚ := ((⌊q * 10000 + 1 / 2⌋ : ℤ) : ℚ) / 10000

/-- The normalization step of `classifyParagraph`: when the total
accumulated score is positive, replace every value by its share of the
total rounded to four decimal digits; otherwise leave the map alone. -/
def normalizeMap (m : ScoreMap) : ScoreMap :=
  if 0 < totalScore m then
    m.map (fun p => (p.1, round4 (p.2 / totalScore m)))
  else m

/-- Insertion step of a stable descending sort by score: the new
element goes in front of the first entry whose score is not larger. -/
def insertDesc (x : String × ℚ) : List (String × ℚ) → List (String × ℚ)
  | [] => [x]
  | y :: ys => if y.2 ≤ x.2 then x :: y :: ys else y :: insertDesc x ys

/-- The sort `Object.entries(scoreMap).sort((a, b) => b[1] - a[1])`: a stable
sort by descending score (JavaScript array sort is stable, so entries
with equal scores keep insertion order). -/
def sortDesc (l : List (String × ℚ)) : List (String × ℚ) := l.foldr insertDesc []

/-! ## The retry loop and `classifyParagraph` -/

/-- Events observable while classifying one sentence: an API call for a
given attempt number (recording whether it succeeded) and a backoff
delay in milliseconds. -/
inductive Ev where
  | call (attempt : Nat) (ok : Bool)
  | delay (ms : Nat)
deriving DecidableEq, Repr

/-- Holds exactly on call events. -/
def isCall : Ev → Bool
  | Ev.call _ _ => true
  | Ev.delay _ => false

/-- Number of classifier invocations in a trace. -/
def callCount (evs : List Ev) : Nat := (evs.filter isCall).length

/-- The retry loop `for (let attempt = 1; attempt <= maxRetries; attempt++)`
for one sentence. `o a` is the outcome of the external call on attempt
`a` (`none` models a thrown error). On success the loop breaks; on a
failed attempt before the last one it waits 500 ms and retries; the
last failed attempt only logs. The first argument of the recursion is
the number of attempts still allowed. -/
def runAttempts (o : Nat → Option RList) : Nat → Nat → Option RList × List Ev
  | 0, _ => (none, [])
  | fuel + 1, a =>
    match o a with
    | some r => (some r, [Ev.call a true])
    | none =>
      if fuel = 0 then (none, [Ev.call a false])
      else
        let p := runAttempts o fuel (a + 1)
        (p.1, Ev.call a false :: Ev.delay 500 :: p.2)

/-- The trim `String.trim` on a character list. -/
def trimChars (l : List Char) : List Char :=
  ((l.dropWhile Char.isWhitespace).reverse.dropWhile Char.isWhitespace).reverse

/-- The sentence loop of `classifyParagraph`: skip sentences that trim
to nothing, classify the others with up to three attempts (the oracle
`cl` is addressed by position of the sentence in the list and attempt
number), and accumulate the scores of successful answers. Returns the
final map and, per classified sentence, its trimmed text and the event
trace of its retry loop. -/
def classifySentences (cl : Nat → Nat → Option RList) :
    List (List Char) → Nat → ScoreMap → ScoreMap × List (List Char × List Ev)
  | [], _, m => (m, [])
  | s :: rest, i, m =>
    let t := trimChars s
    if t = [] then classifySentences cl rest (i + 1) m
    else
      let r := runAttempts (cl i) 3 1
      let m2 := match r.1 with
        | some rl => applyResult m rl
        | none => m
      let p := classifySentences cl rest (i + 1) m2
      (p.1, (t, r.2) :: p.2)

/-- Result of `classifyParagraph`, together with the observable
per-sentence call traces. -/
structure ClassifyResult where
  dominantEmotion : String
  detailedScores : ScoreMap
  sentenceTraces : List (List Char × List Ev)
deriving DecidableEq, Repr

/-- The whole of `classifyParagraph`: split into sentences, classify
each with bounded retry, normalize the accumulated scores when their
total is positive, and pick the top entry of the descending sort as the
dominant emotion, defaulting to `"neutral"` when the map is empty. -/
def classifyParagraph (cl : Nat → Nat → Option RList) (text : List Char) :
    ClassifyResult :=
  let ss := sentencesOf text
  let p := classifySentences cl ss 0 []
  let m := normalizeMap p.1
  { dominantEmotion :=
      match sortDesc m with
      | [] => "neutral"
      | q :: _ => q.1
  , detailedScores := m
  , sentenceTraces := p.2 }

/-! ## Emotion label map -/

/-- The object literal `emotionMap` of the source, as a partial lookup
table. -/
def emotionMap (l : String) : Option String :=
  if l = "joy" then some "Confident"
  else if l = "love" then some "Confident"
  else if l = "surprise" then some "Engaged"
  else if l = "sadness" then some "Hesitant"
  else if l = "fear" then some "Cautious"
  else if l = "anger" then some "Assertive"
  else none

/-- The lookup `emotionMap[label] || label`: table lookup with pass-through for
labels outside the table. -/
def mapEmotion (l : String) : String := (emotionMap l).getD l

/-! ## The route handler -/

/-- A rating of the evaluation: a JSON number and a justification. -/
structure Rating where
  score : ℚ
  justification : String
deriving DecidableEq, Repr

/-- The three ratings of the evaluation schema. -/
structure Ratings where
  clarity : Rating
  relevance : Rating
  completeness : Rating
deriving DecidableEq, Repr

/-- The `evaluation` subtree of the generative-model output. -/
structure Evaluation where
  ratings : Ratings
  sentimentTone : String
  answerStrength : String
  howToMakeItBetter : List String
  suggestedBetterAnswer : String
deriving DecidableEq, Repr

/-- The `holisticFeedback` subtree of the generative-model output. -/
structure Holistic where
  insight : String
  strength : String
  improvement_tip : String
deriving DecidableEq, Repr

/-- A generative-model answer that parsed as JSON of the expected
shape. -/
structure AIFeedback where
  evaluation : Evaluation
  holisticFeedback : Holistic
deriving DecidableEq, Repr

/-- The data interpolated into the master prompt, that is, what the
synthesis stage receives. `posture` and `emotion` hold the parsed
telemetry (absent telemetry is `none`), `mappedTone` the dominant
emotion after the `emotionMap` lookup. -/
structure PromptData where
  domain : String
  experience : String
  questionText : String
  transcript : List Char
  posture : Option String
  emotion : Option String
  mappedTone : String
deriving DecidableEq, Repr

/-- The JSON object of the success response `res.json({...})`. -/
structure SuccessBody where
  transcription : List Char
  postureAnalysis : Option String
  emotionAnalysis : Option String
  dominantEmotion : String
  textualEmotionAnalysis : ScoreMap
  evaluation : Evaluation
  holisticFeedback : Holistic
  question : String
deriving DecidableEq, Repr

/-- The possible responses of the route: the 400 for a missing upload,
the no-speech short-circuit `{skipEvaluation: true, message}`, the
success JSON, and the 500 `Processing failed: ...` text. -/
inductive Response where
  | badRequest (msg : String)
  | skipEval (message : String)
  | success (body : SuccessBody)
  | failure (msg : String)
deriving DecidableEq, Repr

/-- The pipeline stages of the handler, in source order. -/
inductive Stage where
  | materialize
  | normalize
  | transcribe
  | classify
  | synthesize
deriving DecidableEq, Repr

/-- The two temporary audio artifacts of one request. -/
inductive TempFile where
  | webm
  | wav
deriving DecidableEq, Repr

/-- The call `fs.unlink(path, () => \x7b\x7d)`: remove the file if present; the empty
callback swallows any error, so the operation is total and removing an
absent file changes nothing. -/
def unlinkQuiet (files : List TempFile) (p : TempFile) : List TempFile :=
  files.filter (fun q => q ≠ p)

/-- One request environment: the request data and the outcomes of every
external effect the handler may perform. `whisperOut = none` models a
transcription subprocess error; `jsonParse s = none` models
`JSON.parse(s)` throwing; `genAI p = none` models a failed generative
call or unparseable model output. -/
structure Env where
  hasAudio : Bool
  questionText : String
  domain : String
  experience : String
  postureData : Option String
  emotionData : Option String
  mvOk : Bool
  mvMsg : String
  ffmpegOk : Bool
  ffmpegMsg : String
  whisperOut : Option (List Char)
  whisperMsg : String
  classifier : Nat → Nat → Option RList
  jsonParse : String → Option String
  jsonMsg : String
  genAI : PromptData → Option AIFeedback
  genMsg : String

/-- Everything observable about one handled request: the response, the
stages that ran, the prompt passed to the generative model (if the
synthesis stage was reached), whether removal of each temporary file
was attempted, and the temporary files still present afterwards. -/
structure Outcome where
  response : Response
  stages : List Stage
  promptSent : Option PromptData
  cleanupWebm : Bool
  cleanupWav : Bool
  finalFiles : List TempFile

/-- The parse `postureData ? JSON.parse(postureData) : null` (and the same for
`emotionData`): absent or empty-string telemetry is passed through as
null, anything else is parsed, and a parse error throws. -/
def parseTelemetry (jp : String → Option String) :
    Option String → Except Unit (Option String)
  | none => Except.ok none
  | some s =>
    if s = "" then Except.ok none
    else
      match jp s with
      | some v => Except.ok (some v)
      | none => Except.error ()

/-- Split into maximal whitespace-free words; the accumulator holds the
reversed characters of the word in progress. -/
def wordsAux : List Char → List Char → List (List Char)
  | acc, [] => if acc = [] then [] else [acc.reverse]
  | acc, c :: cs =>
    if c.isWhitespace then
      if acc = [] then wordsAux [] cs
      else acc.reverse :: wordsAux [] cs
    else wordsAux (c :: acc) cs

/-- Join words with single spaces. -/
def joinSpace : List (List Char) → List Char
  | [] => []
  | [w] => w
  | w :: ws => w ++ ' ' :: joinSpace ws

/-- Modelled from the spec: the function `cleanTranscription` lives in
`backend/utils/fileHelpers.js`, which is not among the provided source
files. The Transcription Adapter contract of the spec says it strips
engine decoration, collapses internal whitespace and trims leading and
trailing whitespace, so whitespace-only engine output cleans to the
empty string. The whitespace behavior is modelled here (split on
whitespace, rejoin with single spaces); decoration stripping is not
modelled. -/
def cleanTranscription (l : List Char) : List Char := joinSpace (wordsAux [] l)

/-- The `try` block of the route handler, from `audioFile.mv` to the
success response. Returns the response, the stages that ran, the prompt
handed to the generative model (when built) and the temporary files
existing when the block exits. -/
def tryBody (e : Env) : Response × List Stage × Option PromptData × List TempFile :=
  if ¬ e.mvOk then
    (Response.failure ("Processing failed: " ++ e.mvMsg),
      [Stage.materialize], none, [])
  else if ¬ e.ffmpegOk then
    (Response.failure ("Processing failed: " ++ e.ffmpegMsg),
      [Stage.materialize, Stage.normalize], none, [TempFile.webm])
  else
    match e.whisperOut with
    | none =>
      (Response.failure ("Processing failed: " ++ e.whisperMsg),
        [Stage.materialize, Stage.normalize, Stage.transcribe], none,
        [TempFile.webm, TempFile.wav])
    | some out =>
      let cleaned := cleanTranscription out
      if cleaned = [] then
        (Response.skipEval "No speech detected.",
          [Stage.materialize, Stage.normalize, Stage.transcribe], none,
          [TempFile.webm, TempFile.wav])
      else
        let cres := classifyParagraph e.classifier cleaned
        let stages := [Stage.materialize, Stage.normalize, Stage.transcribe,
          Stage.classify]
        match parseTelemetry e.jsonParse e.postureData with
        | Except.error _ =>
          (Response.failure ("Processing failed: " ++ e.jsonMsg), stages, none,
            [TempFile.webm, TempFile.wav])
        | Except.ok pd =>
          match parseTelemetry e.jsonParse e.emotionData with
          | Except.error _ =>
            (Response.failure ("Processing failed: " ++ e.jsonMsg), stages, none,
              [TempFile.webm, TempFile.wav])
          | Except.ok ed =>
            let prompt : PromptData :=
              { domain := e.domain
              , experience := e.experience
              , questionText := e.questionText
              , transcript := cleaned
              , posture := pd
              , emotion := ed
              , mappedTone := mapEmotion cres.dominantEmotion }
            match e.genAI prompt with
            | none =>
              (Response.failure ("Processing failed: " ++ e.genMsg),
                stages ++ [Stage.synthesize], some prompt,
                [TempFile.webm, TempFile.wav])
            | some fb =>
              (Response.success
                { transcription := cleaned
                , postureAnalysis := pd
                , emotionAnalysis := ed
                , dominantEmotion := cres.dominantEmotion
                , textualEmotionAnalysis := cres.detailedScores
                , evaluation := fb.evaluation
                , holisticFeedback := fb.holisticFeedback
                , question := e.questionText },
                stages ++ [Stage.synthesize], some prompt,
                [TempFile.webm, TempFile.wav])

/-- The whole route handler `router.post("/", ...)`: the missing-upload
400 short-circuits before anything else; otherwise the `try` block runs
and the `finally` block attempts removal of both temporary files on
every exit path. -/
def handler (e : Env) : Outcome :=
  if ¬ e.hasAudio then
    { response := Response.badRequest "No audio uploaded"
    , stages := []
    , promptSent := none
    , cleanupWebm := false
    , cleanupWav := false
    , finalFiles := [] }
  else
    let r := tryBody e
    { response := r.1
    , stages := r.2.1
    , promptSent := r.2.2.1
    , cleanupWebm := true
    , cleanupWav := true
    , finalFiles := unlinkQuiet (unlinkQuiet r.2.2.2 TempFile.webm) TempFile.wav }

/-- The `evaluation` subtree of a response, when it is a success. -/
def respEvaluation : Response → Option Evaluation
  | Response.success b => some b.evaluation
  | _ => none

/-- The `dominantEmotion` field of a response, when it is a success. -/
def respDominant : Response → Option String
  | Response.success b => some b.dominantEmotion
  | _ => none

/-- The `textualEmotionAnalysis.data` field of a response, when it is a
success. -/
def respScores : Response → Option ScoreMap
  | Response.success b => some b.textualEmotionAnalysis
  | _ => none

/-- Whether a response is the success JSON. -/
def isSuccess : Response → Bool
  | Response.success _ => true
  | _ => false

/-- Whether a telemetry parse threw. -/
def parseFails (r : Except Unit (Option String)) : Bool :=
  match r with
  | Except.error _ => true
  | Except.ok _ => false

/-! ## Helper lemmas -/

lemma round4_err (q : ℚ) : |round4 q - q| ≤ 1 / 20000 := by
  have h1 : ((⌊q * 10000 + 1 / 2⌋ : ℤ) : ℚ) ≤ q * 10000 + 1 / 2 := Int.floor_le _
  have h2 : q * 10000 + 1 / 2 < ((⌊q * 10000 + 1 / 2⌋ : ℤ) : ℚ) + 1 :=
    Int.lt_floor_add_one _
  rw [round4, abs_le]
  constructor <;> linarith

lemma sum_map_round4_err (l : List ℚ) :
    |(l.map round4).sum - l.sum| ≤ l.length * (1 / 20000) := by
  induction l with
  | nil => simp
  | cons x xs ih =>
    simp only [List.map_cons, List.sum_cons, List.length_cons]
    calc |round4 x + (xs.map round4).sum - (x + xs.sum)|
        = |(round4 x - x) + ((xs.map round4).sum - xs.sum)| := by ring_nf
      _ ≤ |round4 x - x| + |(xs.map round4).sum - xs.sum| := abs_add _ _
      _ ≤ 1 / 20000 + xs.length * (1 / 20000) := add_le_add (round4_err x) ih
      _ = (xs.length + 1 : ℕ) * (1 / 20000) := by push_cast; ring

lemma sum_map_div (l : List ℚ) (c : ℚ) :
    (l.map (fun x => x / c)).sum = l.sum / c := by
  induction l with
  | nil => simp
  | cons x xs ih => simp [ih, add_div]

/-! ## Claim C1 -/

/-- The five-label score map on which rounding drifts the normalized
sum to 0.9998. -/
def mC1 : ScoreMap :=
  [("a", 20004 / 100000), ("b", 20004 / 100000), ("c", 20004 / 100000),
   ("d", 20004 / 100000), ("e", 19984 / 100000)]

/-- Claim C1, counterexample: an accumulated score map with positive
total (five labels, total exactly 1) whose normalized values sum to
0.9998, missing 1.0 by 2e-4, outside the claimed 1e-4 tolerance. -/
theorem C1_counterexample :
    0 < totalScore mC1 ∧ ¬ |totalScore (normalizeMap mC1) - 1| ≤ 1 / 10000 := by
  have ht : totalScore mC1 = 1 := by
    simp [totalScore, mC1]; norm_num
  constructor
  · rw [ht]; norm_num
  · simp [normalizeMap, ht, mC1, totalScore, round4]
    norm_num
    rw [abs_of_pos (by norm_num : (0:ℚ) < 1 / 5000)]
    norm_num

/-- Claim C1, amended: after normalization in `classifyParagraph` the
values of a score map with positive total sum to 1.0 within
`n * 5e-5`, where `n` is the number of labels in the map (each label
contributes at most half of the last rounded digit; 1e-4 only bounds
maps with at most two labels). -/
theorem C1_theorem (m : ScoreMap) (h : 0 < totalScore m) :
    |totalScore (normalizeMap m) - 1| ≤ m.length * (1 / 20000) := by
  have hne : totalScore m ≠ 0 := ne_of_gt h
  have e1 : totalScore (normalizeMap m)
      = ((m.map (fun p => p.2 / totalScore m)).map round4).sum := by
    rw [normalizeMap, if_pos h, totalScore, totalScore, List.map_map,
      List.map_map, Function.comp_def, Function.comp_def]
  have e2 : (m.map (fun p => p.2 / totalScore m)).sum = 1 := by
    have hd := sum_map_div (m.map Prod.snd) (totalScore m)
    rw [List.map_map, Function.comp_def] at hd
    rw [hd, totalScore, div_self]
    rw [← totalScore]
    exact hne
  rw [e1]
  calc |((m.map fun p => p.2 / totalScore m).map round4).sum - 1|
      = |((m.map fun p => p.2 / totalScore m).map round4).sum
          - (m.map fun p => p.2 / totalScore m).sum| := by rw [e2]
    _ ≤ (m.map fun p => p.2 / totalScore m).length * (1 / 20000) :=
        sum_map_round4_err _
    _ = m.length * (1 / 20000) := by rw [List.length_map]

/-- Witness for C1: the amended bound evaluated on the counterexample
map itself (five labels, bound 2.5e-4, drift 2e-4). -/
theorem C1_witness :
    |totalScore (normalizeMap mC1) - 1| ≤ mC1.length * (1 / 20000) :=
  C1_theorem mC1 (by simp [totalScore, mC1]; norm_num)

/-! ## Claim C3 -/

/-- Claim C3, counterexample: the transcript `"Hi!!"` splits to the
single sentence `"Hi!"`; the second exclamation mark is dropped, a
difference that is not whitespace normalization. -/
theorem C3_counterexample :
    ¬ stripWs (joinL (sentencesOf ("Hi!!".data))) = stripWs ("Hi!!".data) := by
  decide

/-- Claim C3, amended: for every transcript in which each terminal
punctuation character is immediately preceded by a non-terminal
character (no leading terminator and no two adjacent terminators),
concatenating the sentences produced by the splitting step of
`classifyParagraph` reproduces the transcript exactly. On other
transcripts the split drops the surplus terminators of each run. -/
theorem C3_theorem (l : List Char) (h : goodT l = true) :
    joinL (sentencesOf l) = l := by
  cases hm : matchSentences l with
  | nil => simp [sentencesOf, hm, joinL]
  | cons a as =>
    have hs : sentencesOf l = matchSentences l := by
      rw [sentencesOf, hm]
    rw [hs]
    exact joinL_matchSentences l h

/-- Witness for C3 on a concrete well-punctuated transcript. -/
theorem C3_witness :
    goodT ("Hi there! How are you? Bye.".data) = true ∧
      joinL (sentencesOf ("Hi there! How are you? Bye.".data))
        = "Hi there! How are you? Bye.".data :=
  ⟨by decide, C3_theorem _ (by decide)⟩

/-! ## Claim C2 -/

lemma runAttempts_none (o : Nat → Option RList) (h : ∀ a, o a = none) :
    ∀ fuel a, (runAttempts o fuel a).1 = none := by
  intro fuel
  induction fuel with
  | zero => intro a; rfl
  | succ n ih =>
    intro a
    rw [runAttempts]
    simp only [h a]
    by_cases hn : n = 0
    · simp [hn]
    · simp [hn, ih (a + 1)]

lemma classifySentences_allfail (cl : Nat → Nat → Option RList)
    (h : ∀ i a, cl i a = none) :
    ∀ (ss : List (List Char)) (i : Nat) (m : ScoreMap),
      (classifySentences cl ss i m).1 = m := by
  intro ss
  induction ss with
  | nil => intro i m; rfl
  | cons s rest ih =>
    intro i m
    rw [classifySentences]
    by_cases ht : trimChars s = []
    · simp only [ht, if_pos rfl]
      exact ih (i + 1) m
    · simp only [if_neg ht]
      have hr := runAttempts_none (cl i) (h i) 3 1
      simp only [hr]
      exact ih (i + 1) m

/-- The classifier oracle that returns a successful answer whose single
score is zero. -/
def clC2 : Nat → Nat → Option RList := fun _ _ => some [("joy", 0)]

/-- Claim C2, counterexample: when the classifier succeeds but every
returned score is zero, the accumulated map is non-empty (the label is
inserted with value 0), normalization is skipped, and the dominant
emotion is the first inserted label, not `"neutral"`, with a non-empty
detail map. -/
theorem C2_counterexample :
    (classifyParagraph clC2 ['h', 'i']).dominantEmotion = "joy" ∧
    ¬ ((classifyParagraph clC2 ['h', 'i']).dominantEmotion = "neutral" ∧
       (classifyParagraph clC2 ['h', 'i']).detailedScores = []) := by
  have h1 : classifySentences clC2 (sentencesOf ['h', 'i']) 0 []
      = ([("joy", 0)], [(['h', 'i'], [Ev.call 1 true])]) := rfl
  have h2 : normalizeMap [("joy", (0 : ℚ))] = [("joy", 0)] := by
    rw [normalizeMap, if_neg]
    simp [totalScore]
  have h3 : sortDesc [("joy", (0 : ℚ))] = [("joy", 0)] := rfl
  rw [classifyParagraph]
  simp only [h1, h2, h3]
  exact ⟨trivial, by simp⟩

/-- Claim C2, amended: when every classification call fails after
retries (no attempt for any sentence returns an answer),
`classifyParagraph` returns dominant emotion `"neutral"` and an empty
detail map. A successful call whose scores are all zero instead
populates the map with zero values, and the dominant emotion is then
its first label rather than `"neutral"`. -/
theorem C2_theorem (cl : Nat → Nat → Option RList) (text : List Char)
    (h : ∀ i a, cl i a = none) :
    (classifyParagraph cl text).dominantEmotion = "neutral" ∧
    (classifyParagraph cl text).detailedScores = [] := by
  have h1 : (classifySentences cl (sentencesOf text) 0 []).1 = [] :=
    classifySentences_allfail cl h _ 0 []
  have h2 : normalizeMap [] = [] := by
    rw [normalizeMap]
    split <;> simp
  rw [classifyParagraph]
  simp only [h1, h2]
  exact ⟨rfl, trivial⟩

/-- Witness for C2 with the always-failing oracle on a concrete
transcript. -/
theorem C2_witness :
    (classifyParagraph (fun _ _ => none) ['h', 'i']).dominantEmotion = "neutral" ∧
    (classifyParagraph (fun _ _ => none) ['h', 'i']).detailedScores = [] :=
  C2_theorem (fun _ _ => none) ['h', 'i'] (fun _ _ => rfl)

/-! ## Claim C4 -/

/-- Claim C4: when the cleaned transcript is empty (whisper output
empty or whitespace-only), the handler answers exactly the no-speech
JSON and neither the classification stage nor the synthesis stage
runs. -/
theorem C4_theorem (e : Env) (w : List Char)
    (ha : e.hasAudio = true) (hm : e.mvOk = true) (hf : e.ffmpegOk = true)
    (hw : e.whisperOut = some w) (hc : cleanTranscription w = []) :
    (handler e).response = Response.skipEval "No speech detected." ∧
    Stage.classify ∉ (handler e).stages ∧
    Stage.synthesize ∉ (handler e).stages := by
  simp [handler, tryBody, ha, hm, hf, hw, hc]

/-- A request environment whose transcription output is whitespace
only. -/
def envC4 : Env :=
  { hasAudio := true, questionText := "Q", domain := "D", experience := "E"
  , postureData := none, emotionData := none
  , mvOk := true, mvMsg := "", ffmpegOk := true, ffmpegMsg := ""
  , whisperOut := some ("  \t ".data), whisperMsg := ""
  , classifier := fun _ _ => none, jsonParse := fun _ => none, jsonMsg := ""
  , genAI := fun _ => none, genMsg := "" }

/-- Witness for C4 on a whitespace-only transcription output. -/
theorem C4_witness :
    (handler envC4).response = Response.skipEval "No speech detected." ∧
    Stage.classify ∉ (handler envC4).stages ∧
    Stage.synthesize ∉ (handler envC4).stages :=
  C4_theorem envC4 ("  \t ".data) rfl rfl rfl rfl (by decide)

/-! ## Claim C5 -/

/-- Claim C5: for every request that enters the `try` block (audio
present), the `finally` block attempts removal of both temporary audio
files on every exit path, neither file survives the request, and the
quiet unlink of an already-absent file is a no-op rather than an
error. -/
theorem C5_theorem (e : Env) (s : List TempFile) (p : TempFile)
    (ha : e.hasAudio = true) (hp : p ∉ s) :
    (handler e).cleanupWebm = true ∧ (handler e).cleanupWav = true ∧
    TempFile.webm ∉ (handler e).finalFiles ∧
    TempFile.wav ∉ (handler e).finalFiles ∧
    unlinkQuiet s p = s := by
  refine ⟨by simp [handler, ha], by simp [handler, ha], ?_, ?_, ?_⟩
  · simp [handler, ha, unlinkQuiet, List.mem_filter]
  · simp [handler, ha, unlinkQuiet, List.mem_filter]
  · rw [unlinkQuiet, List.filter_eq_self]
    intro a ha'
    simp only [ne_eq, decide_eq_true_eq]
    intro h
    exact hp (h ▸ ha')

/-- A request environment whose transcoding step fails. -/
def envC5 : Env :=
  { hasAudio := true, questionText := "Q", domain := "D", experience := "E"
  , postureData := none, emotionData := none
  , mvOk := true, mvMsg := "", ffmpegOk := false, ffmpegMsg := "bad codec"
  , whisperOut := none, whisperMsg := ""
  , classifier := fun _ _ => none, jsonParse := fun _ => none, jsonMsg := ""
  , genAI := fun _ => none, genMsg := "" }

/-- Witness for C5: a concrete failing request (transcoder error) still
attempts both removals and ends with no temporary file, and unlinking a
file absent from a concrete state is a no-op. -/
theorem C5_witness :
    (handler envC5).cleanupWebm = true ∧ (handler envC5).cleanupWav = true ∧
    TempFile.webm ∉ (handler envC5).finalFiles ∧
    TempFile.wav ∉ (handler envC5).finalFiles ∧
    unlinkQuiet [TempFile.webm] TempFile.wav = [TempFile.webm] :=
  C5_theorem envC5 [TempFile.webm] TempFile.wav rfl (by decide)

/-! ## Claim C8 -/

lemma materialize_mem_tryBody (e : Env) : Stage.materialize ∈ (tryBody e).2.1 := by
  rw [tryBody]
  repeat' split
  all_goals try simp
  all_goals try split
  all_goals try simp
  all_goals try split
  all_goals simp

/-- Claim C8: a request with no audio upload is answered with the 400
text `No audio uploaded` before any stage runs and before any temporary
file exists, and every other error response (the 500 processing
failure) happens only on requests that reached the materialization
attempt. -/
theorem C8_theorem (e : Env) (m : String) :
    (e.hasAudio = false →
      (handler e).response = Response.badRequest "No audio uploaded" ∧
      (handler e).stages = [] ∧ (handler e).finalFiles = [] ∧
      (handler e).promptSent = none) ∧
    ((handler e).response = Response.failure m →
      e.hasAudio = true ∧ Stage.materialize ∈ (handler e).stages) := by
  constructor
  · intro h
    simp [handler, h]
  · intro h
    cases hcase : e.hasAudio with
    | false =>
      exfalso
      rw [handler] at h
      simp [hcase] at h
    | true =>
      refine ⟨rfl, ?_⟩
      have hs : (handler e).stages = (tryBody e).2.1 := by
        simp [handler, hcase]
      rw [hs]
      exact materialize_mem_tryBody e

/-- A request environment with no audio upload. -/
def envC8a : Env :=
  { hasAudio := false, questionText := "Q", domain := "D", experience := "E"
  , postureData := none, emotionData := none
  , mvOk := true, mvMsg := "", ffmpegOk := true, ffmpegMsg := ""
  , whisperOut := none, whisperMsg := ""
  , classifier := fun _ _ => none, jsonParse := fun _ => none, jsonMsg := ""
  , genAI := fun _ => none, genMsg := "" }

/-- A request environment whose file move fails. -/
def envC8b : Env :=
  { hasAudio := true, questionText := "Q", domain := "D", experience := "E"
  , postureData := none, emotionData := none
  , mvOk := false, mvMsg := "disk full", ffmpegOk := true, ffmpegMsg := ""
  , whisperOut := none, whisperMsg := ""
  , classifier := fun _ _ => none, jsonParse := fun _ => none, jsonMsg := ""
  , genAI := fun _ => none, genMsg := "" }

/-- Witness for C8: a missing upload is answered with the bare 400 and
an empty trace, while a concrete storage failure happens only after the
materialization attempt. -/
theorem C8_witness :
    ((handler envC8a).response = Response.badRequest "No audio uploaded" ∧
     (handler envC8a).stages = [] ∧ (handler envC8a).finalFiles = [] ∧
     (handler envC8a).promptSent = none) ∧
    (envC8b.hasAudio = true ∧ Stage.materialize ∈ (handler envC8b).stages) :=
  ⟨(C8_theorem envC8a "").1 rfl,
   (C8_theorem envC8b "Processing failed: disk full").2 rfl⟩

/-! ## Claim C10 -/

/-- Claim C10: telemetry that is present but not valid JSON fails the
whole request with the 500 processing-failure response, although
materialization, transcoding, transcription and emotion classification
all ran; the synthesis stage is never reached. -/
theorem C10_theorem (e : Env) (w : List Char)
    (ha : e.hasAudio = true) (hm : e.mvOk = true) (hf : e.ffmpegOk = true)
    (hw : e.whisperOut = some w) (hne : ¬ cleanTranscription w = [])
    (hj : parseFails (parseTelemetry e.jsonParse e.postureData) = true ∨
          parseFails (parseTelemetry e.jsonParse e.emotionData) = true) :
    (handler e).response = Response.failure ("Processing failed: " ++ e.jsonMsg) ∧
    Stage.materialize ∈ (handler e).stages ∧
    Stage.normalize ∈ (handler e).stages ∧
    Stage.transcribe ∈ (handler e).stages ∧
    Stage.classify ∈ (handler e).stages ∧
    Stage.synthesize ∉ (handler e).stages := by
  cases hpp : parseTelemetry e.jsonParse e.postureData with
  | error u => simp [handler, tryBody, ha, hm, hf, hw, hne, hpp]
  | ok pd =>
    cases hpe : parseTelemetry e.jsonParse e.emotionData with
    | error u => simp [handler, tryBody, ha, hm, hf, hw, hne, hpp, hpe]
    | ok ed =>
      exfalso
      rcases hj with hj | hj
      · simp [parseFails, hpp] at hj
      · simp [parseFails, hpe] at hj

/-- A request environment whose posture telemetry is present but does
not parse as JSON. -/
def envC10 : Env :=
  { hasAudio := true, questionText := "Q", domain := "D", experience := "E"
  , postureData := some "oops", emotionData := none
  , mvOk := true, mvMsg := "", ffmpegOk := true, ffmpegMsg := ""
  , whisperOut := some ("hi".data), whisperMsg := ""
  , classifier := fun _ _ => none, jsonParse := fun _ => none
  , jsonMsg := "Unexpected token o"
  , genAI := fun _ => none, genMsg := "" }

/-- Witness for C10 on a concrete request with malformed posture
telemetry. -/
theorem C10_witness :
    (handler envC10).response
      = Response.failure ("Processing failed: " ++ envC10.jsonMsg) ∧
    Stage.materialize ∈ (handler envC10).stages ∧
    Stage.normalize ∈ (handler envC10).stages ∧
    Stage.transcribe ∈ (handler envC10).stages ∧
    Stage.classify ∈ (handler envC10).stages ∧
    Stage.synthesize ∉ (handler envC10).stages :=
  C10_theorem envC10 ("hi".data) rfl rfl rfl rfl (by decide) (Or.inl rfl)

/-! ## Claim C9 -/

/-- Claim C9: the emotion label map is a pure total function with the
six tabled entries, every other label passes through unchanged, and the
handler applies it only to the dominant emotion interpolated into the
prompt sent downstream, while the response fields `dominantEmotion` and
`textualEmotionAnalysis.data` carry the raw classification result. -/
theorem C9_theorem (e : Env) (w : List Char) (fb : AIFeedback)
    (pd ed : Option String) (s : String)
    (ha : e.hasAudio = true) (hm : e.mvOk = true) (hf : e.ffmpegOk = true)
    (hw : e.whisperOut = some w) (hne : ¬ cleanTranscription w = [])
    (hpd : parseTelemetry e.jsonParse e.postureData = Except.ok pd)
    (hed : parseTelemetry e.jsonParse e.emotionData = Except.ok ed)
    (hg : ∀ p, e.genAI p = some fb)
    (hs : s ≠ "joy" ∧ s ≠ "love" ∧ s ≠ "surprise" ∧ s ≠ "sadness" ∧
          s ≠ "fear" ∧ s ≠ "anger") :
    mapEmotion "joy" = "Confident" ∧ mapEmotion "love" = "Confident" ∧
    mapEmotion "surprise" = "Engaged" ∧ mapEmotion "sadness" = "Hesitant" ∧
    mapEmotion "fear" = "Cautious" ∧ mapEmotion "anger" = "Assertive" ∧
    mapEmotion s = s ∧
    (handler e).promptSent = some
      { domain := e.domain, experience := e.experience
      , questionText := e.questionText, transcript := cleanTranscription w
      , posture := pd, emotion := ed
      , mappedTone := mapEmotion
          (classifyParagraph e.classifier (cleanTranscription w)).dominantEmotion } ∧
    respDominant (handler e).response
      = some (classifyParagraph e.classifier (cleanTranscription w)).dominantEmotion ∧
    respScores (handler e).response
      = some (classifyParagraph e.classifier (cleanTranscription w)).detailedScores := by
  obtain ⟨h1, h2, h3, h4, h5, h6⟩ := hs
  refine ⟨rfl, rfl, rfl, rfl, rfl, rfl, ?_, ?_, ?_, ?_⟩
  · rw [mapEmotion, emotionMap]
    simp [h1, h2, h3, h4, h5, h6]
  · simp [handler, tryBody, ha, hm, hf, hw, hne, hpd, hed, hg]
  · simp [handler, tryBody, ha, hm, hf, hw, hne, hpd, hed, hg, respDominant]
  · simp [handler, tryBody, ha, hm, hf, hw, hne, hpd, hed, hg, respScores]

/-- The generative-model answer used by the C9 witness. -/
def fbC9 : AIFeedback :=
  { evaluation :=
      { ratings :=
          { clarity := { score := 4, justification := "JC" }
          , relevance := { score := 5, justification := "JR" }
          , completeness := { score := 3, justification := "JX" } }
      , sentimentTone := "T", answerStrength := "S"
      , howToMakeItBetter := ["t1"]
      , suggestedBetterAnswer := "B" }
  , holisticFeedback := { insight := "I", strength := "St", improvement_tip := "Ti" } }

/-- A fully successful request environment whose classifier always
fails (so the raw dominant emotion is the sentinel). -/
def envC9 : Env :=
  { hasAudio := true, questionText := "Q", domain := "D", experience := "E"
  , postureData := none, emotionData := none
  , mvOk := true, mvMsg := "", ffmpegOk := true, ffmpegMsg := ""
  , whisperOut := some ("hi".data), whisperMsg := ""
  , classifier := fun _ _ => none, jsonParse := fun _ => none, jsonMsg := ""
  , genAI := fun _ => some fbC9, genMsg := "" }

/-- Witness for C9 on a concrete successful request and the unmapped
label `"calm"`. -/
theorem C9_witness :
    mapEmotion "joy" = "Confident" ∧ mapEmotion "love" = "Confident" ∧
    mapEmotion "surprise" = "Engaged" ∧ mapEmotion "sadness" = "Hesitant" ∧
    mapEmotion "fear" = "Cautious" ∧ mapEmotion "anger" = "Assertive" ∧
    mapEmotion "calm" = "calm" ∧
    (handler envC9).promptSent = some
      { domain := envC9.domain, experience := envC9.experience
      , questionText := envC9.questionText
      , transcript := cleanTranscription ("hi".data)
      , posture := none, emotion := none
      , mappedTone := mapEmotion
          (classifyParagraph envC9.classifier
            (cleanTranscription ("hi".data))).dominantEmotion } ∧
    respDominant (handler envC9).response
      = some (classifyParagraph envC9.classifier
          (cleanTranscription ("hi".data))).dominantEmotion ∧
    respScores (handler envC9).response
      = some (classifyParagraph envC9.classifier
          (cleanTranscription ("hi".data))).detailedScores :=
  C9_theorem envC9 ("hi".data) fbC9 none none "calm" rfl rfl rfl rfl
    (by decide) rfl rfl (fun _ => rfl)
    (by refine ⟨?_, ?_, ?_, ?_, ?_, ?_⟩ <;> decide)

/-! ## Claim C7 -/

/-- A shape-conforming generative-model answer that violates both the
rating range (clarity score 7) and the tips bound (six tips). -/
def fbC7 : AIFeedback :=
  { evaluation :=
      { ratings :=
          { clarity := { score := 7, justification := "J1" }
          , relevance := { score := 3, justification := "J2" }
          , completeness := { score := 4, justification := "J3" } }
      , sentimentTone := "T", answerStrength := "S"
      , howToMakeItBetter := ["t1", "t2", "t3", "t4", "t5", "t6"]
      , suggestedBetterAnswer := "B" }
  , holisticFeedback := { insight := "I", strength := "St", improvement_tip := "Ti" } }

/-- A request environment whose generative model returns `fbC7`. -/
def envC7 : Env :=
  { hasAudio := true, questionText := "Q", domain := "D", experience := "E"
  , postureData := none, emotionData := none
  , mvOk := true, mvMsg := "", ffmpegOk := true, ffmpegMsg := ""
  , whisperOut := some ("hi".data), whisperMsg := ""
  , classifier := fun _ _ => none, jsonParse := fun _ => none, jsonMsg := ""
  , genAI := fun _ => some fbC7, genMsg := "" }

/-- Claim C7, counterexample: the handler performs no schema
validation, so a model answer with clarity score 7 and six tips is
returned to the caller as the EvaluationReport, violating both claimed
bounds. -/
theorem C7_counterexample :
    respEvaluation (handler envC7).response = some fbC7.evaluation ∧
    ¬ (fbC7.evaluation.ratings.clarity.score ≤ 5 ∧
       fbC7.evaluation.howToMakeItBetter.length ≤ 5) := by
  constructor
  · have hne : ¬ cleanTranscription ("hi".data) = [] := by decide
    simp [handler, tryBody, envC7, hne, respEvaluation, parseTelemetry]
  · intro h
    have h5 : (7 : ℚ) ≤ 5 := h.1
    norm_num at h5

/-- Claim C7, amended: the EvaluationReport returned to the caller is
exactly the parsed external-model output, passed through without
validation, so its rating scores lie in [1,5] and its tips list has at
most five entries only when the model output already satisfies those
bounds (they are requested by the prompt, not enforced by code). -/
theorem C7_theorem (e : Env) (w : List Char) (fb : AIFeedback)
    (pd ed : Option String)
    (ha : e.hasAudio = true) (hm : e.mvOk = true) (hf : e.ffmpegOk = true)
    (hw : e.whisperOut = some w) (hne : ¬ cleanTranscription w = [])
    (hpd : parseTelemetry e.jsonParse e.postureData = Except.ok pd)
    (hed : parseTelemetry e.jsonParse e.emotionData = Except.ok ed)
    (hg : ∀ p, e.genAI p = some fb) :
    respEvaluation (handler e).response = some fb.evaluation := by
  simp [handler, tryBody, ha, hm, hf, hw, hne, hpd, hed, hg, respEvaluation]

/-- The well-formed generative-model answer used by the C7 witness. -/
def fbC7b : AIFeedback :=
  { evaluation :=
      { ratings :=
          { clarity := { score := 4, justification := "J1" }
          , relevance := { score := 3, justification := "J2" }
          , completeness := { score := 5, justification := "J3" } }
      , sentimentTone := "T", answerStrength := "S"
      , howToMakeItBetter := ["t1", "t2"]
      , suggestedBetterAnswer := "B" }
  , holisticFeedback := { insight := "I", strength := "St", improvement_tip := "Ti" } }

/-- A request environment whose generative model returns `fbC7b`. -/
def envC7b : Env :=
  { hasAudio := true, questionText := "Q", domain := "D", experience := "E"
  , postureData := none, emotionData := none
  , mvOk := true, mvMsg := "", ffmpegOk := true, ffmpegMsg := ""
  , whisperOut := some ("hi".data), whisperMsg := ""
  , classifier := fun _ _ => none, jsonParse := fun _ => none, jsonMsg := ""
  , genAI := fun _ => some fbC7b, genMsg := "" }

/-- Witness for C7: the passthrough evaluated on a concrete request. -/
theorem C7_witness :
    respEvaluation (handler envC7b).response = some fbC7b.evaluation :=
  C7_theorem envC7b ("hi".data) fbC7b none none rfl rfl rfl rfl
    (by decide) rfl rfl (fun _ => rfl)

/-! ## Claim C6 -/

/-- Holds exactly on calls recording a failed attempt. -/
def failedCall : Ev → Bool
  | Ev.call _ ok => !ok
  | Ev.delay _ => false

lemma runAttempts_cases (o : Nat → Option RList) :
    (runAttempts o 3 1).2 = [Ev.call 1 true] ∨
    (runAttempts o 3 1).2 = [Ev.call 1 false, Ev.delay 500, Ev.call 2 true] ∨
    (runAttempts o 3 1).2
      = [Ev.call 1 false, Ev.delay 500, Ev.call 2 false, Ev.delay 500,
         Ev.call 3 true] ∨
    (runAttempts o 3 1).2
      = [Ev.call 1 false, Ev.delay 500, Ev.call 2 false, Ev.delay 500,
         Ev.call 3 false] := by
  cases h1 : o 1 with
  | some r => left; simp [runAttempts, h1]
  | none =>
    cases h2 : o 2 with
    | some r => right; left; simp [runAttempts, h1, h2]
    | none =>
      cases h3 : o 3 with
      | some r => right; right; left; simp [runAttempts, h1, h2, h3]
      | none => right; right; right; simp [runAttempts, h1, h2, h3]

lemma traces_from_runAttempts (cl : Nat → Nat → Option RList) :
    ∀ (ss : List (List Char)) (i : Nat) (m : ScoreMap),
      ∀ pr ∈ (classifySentences cl ss i m).2,
        ∃ j, pr.2 = (runAttempts (cl j) 3 1).2 := by
  intro ss
  induction ss with
  | nil => intro i m pr hpr; cases hpr
  | cons s rest ih =>
    intro i m pr hpr
    rw [classifySentences] at hpr
    by_cases ht : trimChars s = []
    · rw [if_pos ht] at hpr
      exact ih (i + 1) m pr hpr
    · rw [if_neg ht] at hpr
      simp only [List.mem_cons] at hpr
      rcases hpr with h | h
      · exact ⟨i, by rw [h]⟩
      · exact ih (i + 1) _ pr h

/-- Claim C6: for every sentence of a transcript the classifier is
invoked at most three times; the event trace of a sentence is its calls
interspersed with fixed 500 ms delays, and every non-final call is a
failed attempt (a delay stands exactly between a failed attempt and the
next); a sentence whose three attempts all fail contributes nothing to
the score map; and a request whose other stages succeed produces the
success response whatever the classifier does — per-sentence
classification failure is never propagated. -/
theorem C6_theorem
    (cl : Nat → Nat → Option RList) (text : List Char)
    (cl2 : Nat → Nat → Option RList) (s : List Char)
    (rest : List (List Char)) (i : Nat) (m : ScoreMap)
    (hfail : cl2 i 1 = none ∧ cl2 i 2 = none ∧ cl2 i 3 = none)
    (e : Env) (w : List Char) (fb : AIFeedback) (pd ed : Option String)
    (ha : e.hasAudio = true) (hm : e.mvOk = true) (hf : e.ffmpegOk = true)
    (hw : e.whisperOut = some w) (hne : ¬ cleanTranscription w = [])
    (hpd : parseTelemetry e.jsonParse e.postureData = Except.ok pd)
    (hed : parseTelemetry e.jsonParse e.emotionData = Except.ok ed)
    (hg : ∀ p, e.genAI p = some fb) :
    (∀ pr ∈ (classifyParagraph cl text).sentenceTraces,
        callCount pr.2 ≤ 3 ∧
        pr.2 = List.intersperse (Ev.delay 500) (pr.2.filter isCall) ∧
        (pr.2.filter isCall).dropLast.all failedCall = true) ∧
    (classifySentences cl2 (s :: rest) i m).1
      = (classifySentences cl2 rest (i + 1) m).1 ∧
    isSuccess (handler e).response = true := by
  refine ⟨?_, ?_, ?_⟩
  · intro pr hpr
    have hpr2 : pr ∈ (classifySentences cl (sentencesOf text) 0 []).2 := by
      simpa [classifyParagraph] using hpr
    obtain ⟨j, hj⟩ := traces_from_runAttempts cl (sentencesOf text) 0 [] pr hpr2
    rw [hj]
    rcases runAttempts_cases (cl j) with h | h | h | h <;> rw [h] <;>
      exact ⟨by decide, by decide, by decide⟩
  · rw [classifySentences]
    by_cases ht : trimChars s = []
    · rw [if_pos ht]
    · rw [if_neg ht]
      have hr : (runAttempts (cl2 i) 3 1).1 = none := by
        simp [runAttempts, hfail.1, hfail.2.1, hfail.2.2]
      simp only [hr]
  · simp [handler, tryBody, ha, hm, hf, hw, hne, hpd, hed, hg, isSuccess]

/-- The generative-model answer used by the C6 witness. -/
def fbC6 : AIFeedback :=
  { evaluation :=
      { ratings :=
          { clarity := { score := 2, justification := "J1" }
          , relevance := { score := 2, justification := "J2" }
          , completeness := { score := 2, justification := "J3" } }
      , sentimentTone := "T", answerStrength := "S"
      , howToMakeItBetter := ["t1"]
      , suggestedBetterAnswer := "B" }
  , holisticFeedback := { insight := "I", strength := "St", improvement_tip := "Ti" } }

/-- A request environment whose classifier fails on every attempt while
all other stages succeed. -/
def envC6 : Env :=
  { hasAudio := true, questionText := "Q", domain := "D", experience := "E"
  , postureData := none, emotionData := none
  , mvOk := true, mvMsg := "", ffmpegOk := true, ffmpegMsg := ""
  , whisperOut := some ("hi there".data), whisperMsg := ""
  , classifier := fun _ _ => none, jsonParse := fun _ => none, jsonMsg := ""
  , genAI := fun _ => some fbC6, genMsg := "" }

/-- Witness for C6: with an always-failing classifier the concrete
request still ends in the success response. -/
theorem C6_witness : isSuccess (handler envC6).response = true :=
  (C6_theorem (fun _ _ => none) ("hi".data) (fun _ _ => none) ("hi".data) [] 0 []
      ⟨rfl, rfl, rfl⟩ envC6 ("hi there".data) fbC6 none none rfl rfl rfl rfl
      (by decide) rfl rfl (fun _ => rfl)).2.2

end Transcribe
